import Mathlib

/-!
Verification of the session trace and replay subsystem of the
implicit-memory-system-webui repository.

The development shallowly embeds:
  * `scripts/generate_sequence_diagram.py` — `escape_text`,
    `generate_mermaid_diagram` and the loader part of `main`;
  * `backend/core/conversation.py` — `ConversationManager.send_message_streaming`
    and `ConversationManager.clear_memories`.

Python dictionaries holding event payloads are embedded as a structure whose
fields are `Option`-valued; every read goes through `Option.getD` with exactly
the default the source passes to `dict.get`.  Python integers holding token
counts are embedded as `Nat` (token counts reported by the provider are
non-negative).  The `SessionTrace` class is not part of the repository's
source files; its append behaviour is modelled from the spec where noted.
-/

/-- Tokens groups the four token counters (input, output, cache-read,
cache-write) that `conversation.py` keeps as the four attributes
`total_input_tokens`, `total_output_tokens`, `total_cache_read_tokens`,
`total_cache_write_tokens`. -/
structure Tokens where
  input : Nat
  output : Nat
  cache_read : Nat
  cache_write : Nat
deriving DecidableEq

/-- Componentwise sum of two token-counter records. -/
def addT (a b : Tokens) : Tokens :=
  ⟨a.input + b.input, a.output + b.output,
   a.cache_read + b.cache_read, a.cache_write + b.cache_write⟩

/-- Componentwise order on token-counter records. -/
def leT (a b : Tokens) : Prop :=
  a.input ≤ b.input ∧ a.output ≤ b.output ∧
  a.cache_read ≤ b.cache_read ∧ a.cache_write ≤ b.cache_write

instance (a b : Tokens) : Decidable (leT a b) := by
  unfold leT; infer_instance

/-- PyVal models the Python values that appear as `parameters` values of a
tool call: strings, integers and booleans. -/
inductive PyVal
  | str (s : String)
  | int (n : Int)
  | bool (b : Bool)
deriving DecidableEq

/-- Models Python `repr` on the simple values of `PyVal`, for strings whose
text contains no character that `repr` would escape (no quote, no backslash,
no control character): such a string is rendered wrapped in single quotes,
integers and booleans as their literal text. -/
def pyRepr : PyVal → String
  | .str s => "\x27" ++ s ++ "\x27"
  | .int n => toString n
  | .bool b => if b then "True" else "False"

/-- Event is one record of a session log: the `event_type` discriminator plus
the union of all per-type payload fields.  A field the producing code did not
set is `none`, matching a key absent from the Python dict; every consumer
reads through the same default that the source passes to `dict.get`.  The
`delta` and `cumulative` fields are the per-turn and running token counters of
a `token_usage` event. -/
structure Event where
  event_type : Option String := none
  content : Option String := none
  messages_count : Nat := 0
  tools : Option (List String) := none
  tool_name : Option String := none
  command : Option String := none
  parameters : Option (List (String × PyVal)) := none
  success : Option Bool := none
  result : Option String := none
  error : Option String := none
  message : Option String := none
  error_type : Option String := none
  delta : Tokens := ⟨0, 0, 0, 0⟩
  cumulative : Tokens := ⟨0, 0, 0, 0⟩
deriving DecidableEq

/-- TraceData is the parsed durable session record consumed by the diagram
script: the top-level keys of the session JSON document.  A missing key is
`none`. -/
structure TraceData where
  session_id : Option String := none
  start_time : Option String := none
  end_time : Option String := none
  model : Option String := none
  system_prompt : Option String := none
  events : List Event := []
deriving DecidableEq

/-- Python-style string slice `s[:n]`: the first `n` characters. -/
def strTake (s : String) (n : Nat) : String := String.mk (s.data.take n)

/-- Python `str.replace` specialised to a single-character pattern: every
occurrence of the character `c` is replaced by the string `r`. -/
def replaceChar (s : String) (c : Char) (r : String) : String :=
  String.join (s.data.map (fun ch => if ch = c then r else String.singleton ch))

/-- Python `sep.join(parts)`. -/
def pyJoin (sep : String) : List String → String
  | [] => ""
  | [x] => x
  | x :: y :: rest => x ++ sep ++ pyJoin sep (y :: rest)

/-- The replacement phase of `escape_text`: newlines become the inline break
marker `<br/>` and double quotes are normalised to single quotes
(`generate_sequence_diagram.py` lines 33-34). -/
def escapedRaw (text : String) : String :=
  replaceChar (replaceChar text '\n' "<br/>") '\x22' "\x27"

/-- Embeds `escape_text` (`generate_sequence_diagram.py` lines 21-40): replace
newlines and double quotes, then truncate to `max_length` characters with a
trailing `...` when the replaced text is longer.  The source declares
`max_length` with default 50; callers here always pass the budget explicitly,
with 50 where the source uses the default. -/
def escape_text (text : String) (max_length : Nat) : String :=
  let t := escapedRaw text
  if t.length > max_length then strTake t max_length ++ "..." else t

/-- Models Python `str` of a list of strings (the `tools` field rendered by
the f-string on line 93), for names `repr` would not escape. -/
def pyStrListRepr (l : List String) : String :=
  "[" ++ pyJoin ", " (l.map (fun t => "\x27" ++ t ++ "\x27")) ++ "]"

/-- Embeds the parameter formatting of the `tool_call` branch
(`generate_sequence_diagram.py` lines 102-104): each value's `repr` sliced to
30 characters, pairs joined with `, ` in dictionary (insertion) order, and the
whole list truncated to 50 characters with a trailing `...`. -/
def format_params (parameters : List (String × PyVal)) : String :=
  let params_str := pyJoin ", " (parameters.map (fun kv => kv.1 ++ "=" ++ strTake (pyRepr kv.2) 30))
  if params_str.length > 50 then strTake params_str 50 ++ "..." else params_str

/-- WalkState is the loop state of the render walk: the 1-based turn counter
and whether a turn grouping is currently open (`turn_number`, `in_turn`). -/
structure WalkState where
  turn_number : Nat
  in_turn : Bool
deriving DecidableEq

/-- Python `error or 'Error'`: the default applies when the value is absent or
falsy (the empty string). -/
def pyOrElse (o : Option String) (d : String) : String :=
  match o with
  | none => d
  | some s => if s = "" then d else s

/-- Lines appended by the `user_input` branch (lines 77-88), with `n` the
already incremented turn number. -/
def user_input_lines (n : Nat) (e : Event) : List String :=
  let content := escape_text (e.content.getD "") 50
  ["",
   "    rect rgb(200, 220, 255)",
   "        Note over User,MemorySystem: Turn " ++ toString n ++ ": User Input",
   "",
   "        User->>HostApp: \"" ++ content ++ "\"",
   "        HostApp->>HostApp: Append to messages"]

/-- Lines appended by the `llm_request` branch when inside a turn
(lines 90-93). -/
def llm_request_lines (e : Event) : List String :=
  ["",
   "        HostApp->>LLM: POST /messages<br/>tools: " ++ pyStrListRepr (e.tools.getD [])]

/-- Lines appended by the `tool_call` branch when the tool is `memory`
(lines 95-109). -/
def tool_call_lines (e : Event) : List String :=
  let command := e.command.getD ""
  ["",
   "        Note over LLM: Decides to " ++ command,
   "        LLM->>MemorySystem: " ++ command ++ "(" ++ format_params (e.parameters.getD []) ++ ")",
   "        activate MemorySystem"]

/-- Lines appended by the `tool_result` branch when the tool is `memory`
(lines 111-125). -/
def tool_result_lines (e : Event) : List String :=
  if e.success.getD true then
    ["        MemorySystem-->>LLM: " ++ escape_text (e.result.getD "") 40,
     "        deactivate MemorySystem"]
  else
    ["        MemorySystem-->>LLM: ERROR: " ++ escape_text (pyOrElse e.error "Error") 40,
     "        deactivate MemorySystem"]

/-- Lines appended by the `llm_response` branch before the optional closing
`end` (lines 127-134). -/
def llm_response_lines (e : Event) : List String :=
  let content := escape_text (e.content.getD "") 60
  ["",
   "        Note over LLM: Ready to respond",
   "        LLM-->>HostApp: \"" ++ content ++ "\"",
   "        HostApp->>HostApp: Append to messages",
   "        HostApp-->>User: \"" ++ content ++ "\""]

/-- Lines appended by the `error` branch (lines 140-142). -/
def error_lines (e : Event) : List String :=
  ["    Note over HostApp: ERROR: " ++ escape_text (e.message.getD "Unknown error") 40]

/-- One iteration of the render walk of `generate_mermaid_diagram`
(lines 74-142): dispatch on `event_type`, returning the updated loop state and
the lines this event appends.  An `event_type` matching no branch appends
nothing and leaves the state unchanged. -/
def stepEvent (s : WalkState) (e : Event) : WalkState × List String :=
  if e.event_type = some "user_input" then
    (⟨s.turn_number + 1, true⟩, user_input_lines (s.turn_number + 1) e)
  else if e.event_type = some "llm_request" then
    if s.in_turn then (s, llm_request_lines e) else (s, [])
  else if e.event_type = some "tool_call" then
    if e.tool_name.getD "" = "memory" then (s, tool_call_lines e) else (s, [])
  else if e.event_type = some "tool_result" then
    if e.tool_name.getD "" = "memory" then (s, tool_result_lines e) else (s, [])
  else if e.event_type = some "llm_response" then
    if s.in_turn then (⟨s.turn_number, false⟩, llm_response_lines e ++ ["    end"])
    else (s, llm_response_lines e)
  else if e.event_type = some "error" then
    (s, error_lines e)
  else (s, [])

/-- The full render walk: fold `stepEvent` over the events in order, starting
from `turn_number = 0`, `in_turn = false`, concatenating the emitted lines. -/
def walk : WalkState → List Event → WalkState × List String
  | s, [] => (s, [])
  | s, e :: rest =>
    let r1 := stepEvent s e
    let r2 := walk r1.1 rest
    (r2.1, r1.2 ++ r2.2)

/-- The fixed header block of the diagram (lines 53-68): session id, start
time and model (each defaulting to `unknown` when absent), the fenced diagram
opening, the four participants, and the session-start note. -/
def headerLines (td : TraceData) : List String :=
  ["---",
   "Session ID: " ++ td.session_id.getD "unknown",
   "Start Time: " ++ td.start_time.getD "unknown",
   "Model: " ++ td.model.getD "unknown",
   "---",
   "",
   "```mermaid",
   "sequenceDiagram",
   "    participant User",
   "    participant HostApp as Host App<br/>(chat.py)",
   "    participant LLM as Claude LLM",
   "    participant MemorySystem as Memory System<br/>(memory_tool)",
   "",
   "    Note over HostApp: Session Started"]

/-- Embeds `generate_mermaid_diagram` (lines 43-152): header, the render walk
over the events, a forced `end` when a turn grouping is still open at the end
of the walk, the session-end footer, all joined with newlines. -/
def generate_mermaid_diagram (td : TraceData) : String :=
  let w := walk ⟨0, false⟩ td.events
  pyJoin "\n"
    (headerLines td ++ w.2 ++
     (if w.1.in_turn then ["    end"] else []) ++
     ["", "    Note over HostApp: Session Ended", "```"])

/-- True exactly for the six `event_type` values the render walk has a branch
for; `token_usage` and unknown types fall through every branch. -/
def isRendered (e : Event) : Bool :=
  e.event_type == some "user_input" || e.event_type == some "llm_request" ||
  e.event_type == some "tool_call" || e.event_type == some "tool_result" ||
  e.event_type == some "llm_response" || e.event_type == some "error"

/-- Embeds the load-then-render part of `main`
(`generate_sequence_diagram.py` lines 171-185): its input is the outcome of
parsing the trace file's JSON text.  A parse failure is reported with the
script's error message and no diagram is produced; any successfully parsed
record is rendered. -/
def diagram_main (parsed : Except String TraceData) : Except String String :=
  match parsed with
  | .error e => .error ("Error: Invalid JSON in trace file: " ++ e)
  | .ok td => .ok (generate_mermaid_diagram td)

/-- Message is one entry of the orchestrator's in-memory message history
(`self.messages`): a role plus text content. -/
inductive Message
  | user (content : String)
  | assistant (content : String)
deriving DecidableEq

/-- ContentBlock models one block of the final LLM response's `content` list:
either a block bearing a `text` attribute or a tool-use block without one. -/
inductive ContentBlock
  | text (s : String)
  | toolUse (name : String)
deriving DecidableEq

/-- Usage models the `usage` object of the completed call.  The two cache
fields are read with `getattr(usage, ..., 0)` in the source, so they are
optional here and read with default 0. -/
structure Usage where
  input_tokens : Nat
  output_tokens : Nat
  cache_read_input_tokens : Option Nat := none
  cache_creation_input_tokens : Option Nat := none
deriving DecidableEq

/-- LLMResponse models the value returned by `runner.until_done_async()`: the
content blocks and the usage record. -/
structure LLMResponse where
  content : List ContentBlock
  usage : Usage
deriving DecidableEq

/-- ToolTrace models one event that the memory tool logs to the shared trace
sink while the LLM call is in flight.  Modelled from the spec: the tool
collaborator (not part of the source files) independently logs its own
`tool_call`/`tool_result` events to the registered trace. -/
inductive ToolTrace
  | call (tool_name command : String) (parameters : List (String × PyVal))
  | result (tool_name command : String) (success : Bool) (res : String) (error : Option String)
deriving DecidableEq

/-- StreamSig models one vendor streaming signal received in the
`async for event in runner.stream_async()` loop: a text delta, the start of a
tool-use content block, a tool event logged to the trace by the memory tool
while the stream is suspended, or any other signal shape (ignored by the
loop). -/
inductive StreamSig
  | contentBlockDelta (text : String)
  | contentBlockStartToolUse (name id : String)
  | toolLog (t : ToolTrace)
  | other
deriving DecidableEq

/-- CallOutcome models the observable behaviour of one external LLM call: the
streaming signals received, followed either by a completed response or by a
raised exception (its Python type name and message). -/
inductive CallOutcome
  | ok (sigs : List StreamSig) (resp : LLMResponse)
  | exn (sigs : List StreamSig) (error_type message : String)
deriving DecidableEq

/-- OutEvent is the normalized outward event vocabulary the orchestrator
yields to its caller: `text`, `tool_use_start`, `done` (last-turn deltas and
cumulative totals) and `error`. -/
inductive OutEvent
  | text (s : String)
  | tool_use_start (tool id : String)
  | done (last total : Tokens)
  | error (message : String)
deriving DecidableEq

/-- SessionTrace models the session log object.  Modelled from the spec
(§3, §4.1): the `SessionTrace` class is not among the source files; a session
carries the model and system prompt it was created with and an ordered,
append-only event list, an event's `sequence_index` being its list
position. -/
structure SessionTrace where
  model : String
  system_prompt : String
  events : List Event := []
deriving DecidableEq

/-- MgrState is the mutable state of a `ConversationManager`: configuration,
in-memory message history, the current session trace, the four cumulative
token counters (grouped as one `Tokens` record), and the durably written
(finalized) session records.  Modelled from the spec where it concerns
finalization: a successful `finalize` moves the current trace to durable
storage (`archived`). -/
structure MgrState where
  model : String
  system_prompt : String
  messages : List Message := []
  trace : SessionTrace
  totals : Tokens := ⟨0, 0, 0, 0⟩
  archived : List SessionTrace := []
deriving DecidableEq

/-- The state of a freshly constructed `ConversationManager` (`__init__`):
empty history, a fresh trace for the given model and system prompt, all four
counters zero. -/
def initState (model system_prompt : String) : MgrState :=
  { model := model, system_prompt := system_prompt,
    trace := { model := model, system_prompt := system_prompt } }

/-- The text carried by a text-delta signal, if any. -/
def sigText : StreamSig → Option String
  | .contentBlockDelta t => some t
  | _ => none

/-- Outward events produced for one streaming signal by the loop body
(`conversation.py` lines 119-145): a text delta is forwarded as a `text`
event, a tool-use block start as a `tool_use_start` event, anything else is
not forwarded. -/
def sigOut : StreamSig → List OutEvent
  | .contentBlockDelta t => [OutEvent.text t]
  | .contentBlockStartToolUse name id => [OutEvent.tool_use_start name id]
  | .toolLog _ => []
  | .other => []

/-- All outward events produced while consuming the stream, in order. -/
def outSigs (sigs : List StreamSig) : List OutEvent := sigs.flatMap sigOut

/-- Trace events appended by the memory tool during the stream, in order. -/
def toolTraceEvent : ToolTrace → Event
  | .call tool_name command parameters =>
    { event_type := some "tool_call", tool_name := some tool_name,
      command := some command, parameters := some parameters }
  | .result tool_name command success res error =>
    { event_type := some "tool_result", tool_name := some tool_name,
      command := some command, success := some success,
      result := some res, error := error }

/-- The tool events interleaved in the stream, as trace events. -/
def sigTraceEvents (sigs : List StreamSig) : List Event :=
  sigs.filterMap (fun g =>
    match g with
    | .toolLog t => some (toolTraceEvent t)
    | _ => none)

/-- The final response text (`conversation.py` lines 117-154): the streamed
deltas are concatenated while streaming, then the text of the first content
block bearing a `text` attribute replaces the concatenation if such a block
exists. -/
def firstTextBlock : List ContentBlock → Option String
  | [] => none
  | .text s :: _ => some s
  | .toolUse _ :: rest => firstTextBlock rest

/-- Extraction of the final assistant response text from the completed call
(see `firstTextBlock`). -/
def extract_response_text (sigs : List StreamSig) (resp : LLMResponse) : String :=
  match firstTextBlock resp.content with
  | some t => t
  | none => String.join (sigs.filterMap sigText)

/-- The per-turn token deltas read from the completed call's usage
(`conversation.py` lines 161-165). -/
def usageDelta (u : Usage) : Tokens :=
  ⟨u.input_tokens, u.output_tokens,
   u.cache_read_input_tokens.getD 0, u.cache_creation_input_tokens.getD 0⟩

/-- Trace event appended by `trace.log_user_input` (modelled from the spec's
event table, §4.1). -/
def user_input_event (content : String) : Event :=
  { event_type := some "user_input", content := some content }

/-- Trace event appended by `trace.log_llm_request` (modelled from the spec's
event table, §4.1). -/
def llm_request_event (messages_count : Nat) (tools : List String) : Event :=
  { event_type := some "llm_request", messages_count := messages_count,
    tools := some tools }

/-- Trace event appended by `trace.log_llm_response` (modelled from the
spec's event table, §4.1). -/
def llm_response_event (content : String) : Event :=
  { event_type := some "llm_response", content := some content }

/-- Trace event appended by `trace.log_token_usage`: the four per-turn deltas
and the four cumulative totals passed at `conversation.py` lines 173-182
(shape modelled from the spec's event table, §4.1). -/
def token_usage_event (delta cumulative : Tokens) : Event :=
  { event_type := some "token_usage", delta := delta, cumulative := cumulative }

/-- Trace event appended by `trace.log_error`: the exception's type name and
message (`conversation.py` line 203; shape modelled from the spec's event
table, §4.1). -/
def error_event (error_type message : String) : Event :=
  { event_type := some "error", error_type := some error_type,
    message := some message }

/-- Embeds `ConversationManager.send_message_streaming`
(`conversation.py` lines 87-207) as a function of the manager state, the user
message, and the external call's outcome.  It returns the updated state and
the outward events yielded, in order.

Success path: the user message is appended to the history and logged, the
request is logged, the stream is consumed (text deltas and tool-use starts
forwarded outward, the memory tool's events reaching the trace), the final
response text is extracted and appended to the history and the trace, the
four counters are increased by this turn's deltas, a `token_usage` event with
deltas and new totals is logged, and a terminal `done` event is yielded.

Failure path (the external call raises): an `error` event is logged and a
terminal `error` event is yielded; the counters are not touched. -/
def send_message_streaming (st : MgrState) (user_message : String)
    (call : CallOutcome) : MgrState × List OutEvent :=
  let msgs1 := st.messages ++ [Message.user user_message]
  let pre := [user_input_event user_message,
              llm_request_event msgs1.length ["memory"]]
  match call with
  | .exn sigs et em =>
    ({ st with
       messages := msgs1,
       trace := { st.trace with
                  events := st.trace.events ++ pre ++ sigTraceEvents sigs
                              ++ [error_event et em] } },
     outSigs sigs ++ [OutEvent.error em])
  | .ok sigs resp =>
    let response_text := extract_response_text sigs resp
    let delta := usageDelta resp.usage
    let totals1 := addT st.totals delta
    ({ st with
       messages := msgs1 ++ [Message.assistant response_text],
       totals := totals1,
       trace := { st.trace with
                  events := st.trace.events ++ pre ++ sigTraceEvents sigs
                              ++ [llm_response_event response_text,
                                  token_usage_event delta totals1] } },
     outSigs sigs ++ [OutEvent.done delta totals1])

/-- Embeds `ConversationManager.clear_memories` (`conversation.py`
lines 214-230) as a function of the manager state and the outcomes of its two
fallible collaborator calls, `memory_tool.clear_all_memory()` and
`trace.finalize()` (both implemented outside the source files; a raised
exception is an `Except.error`).  The returned state is the manager state
when the method returns or when the exception propagates: the source clears
the history and the counters after the memory clear but before finalizing,
and swaps in the fresh trace only after a successful finalize. -/
def clear_memories (st : MgrState) (clearOutcome : Except String String)
    (finalizeOutcome : Except String String) : MgrState × Except String String :=
  match clearOutcome with
  | .error e => (st, .error e)
  | .ok result =>
    let st1 := { st with messages := ([] : List Message), totals := (⟨0, 0, 0, 0⟩ : Tokens) }
    match finalizeOutcome with
    | .error e => (st1, .error e)
    | .ok _ =>
      ({ st1 with
         archived := st1.archived ++ [st1.trace],
         trace := { model := st.model, system_prompt := st.system_prompt,
                    events := [] } },
       .ok result)

/-- A sequence of conversational turns run against one manager: each turn is
the user message plus the external call's outcome. -/
def runTurns (st : MgrState) : List (String × CallOutcome) → MgrState
  | [] => st
  | t :: rest => runTurns (send_message_streaming st t.1 t.2).1 rest

/-- The sum of the per-turn deltas of all `token_usage` events of a log. -/
def sumDeltas : List Event → Tokens
  | [] => ⟨0, 0, 0, 0⟩
  | e :: rest =>
    if e.event_type = some "token_usage" then addT e.delta (sumDeltas rest)
    else sumDeltas rest

/-- Checks the counter-consistency invariant of a log below an already
accumulated total `acc`: every `token_usage` event's cumulative fields equal
the accumulated total plus this event's deltas. -/
def checkCum (acc : Tokens) : List Event → Bool
  | [] => true
  | e :: rest =>
    if e.event_type = some "token_usage" then
      if e.cumulative = addT acc e.delta then checkCum (addT acc e.delta) rest
      else false
    else checkCum acc rest

/-- True exactly for the terminal `done` outward event. -/
def isDone : OutEvent → Bool
  | .done _ _ => true
  | _ => false

/-- A manager state with a non-empty history and non-zero counters, used to
exhibit the non-atomicity of the reset operation. -/
def c8State : MgrState :=
  { model := "m", system_prompt := "p",
    messages := [Message.user "hi"],
    trace := { model := "m", system_prompt := "p",
               events := [user_input_event "hi"] },
    totals := ⟨1, 2, 3, 4⟩ }

/-- A `token_usage` event, invisible in the rendering. -/
def tokenEvtW : Event :=
  { event_type := some "token_usage", delta := ⟨1, 2, 3, 4⟩,
    cumulative := ⟨1, 2, 3, 4⟩ }

/-- An event of an unknown type, invisible in the rendering. -/
def unknownEvtW : Event := { event_type := some "mystery" }

/-- A memory tool call whose command text contains a double quote. -/
def quoteCmdEvt : Event :=
  { event_type := some "tool_call", tool_name := some "memory",
    command := some "say \"hi\"", parameters := some [] }

/-- A string of fifty `a` characters, longer than the error budget of 40. -/
def fiftyA : String := "aaaaaaaaaaaaaaaaaaaaaaaaaaaaaaaaaaaaaaaaaaaaaaaaaa"

/-- The first forty characters of `fiftyA`. -/
def fortyA : String := "aaaaaaaaaaaaaaaaaaaaaaaaaaaaaaaaaaaaaaaa"

/-- A successful memory `tool_result` event with a short result text. -/
def okResultEvt : Event :=
  { event_type := some "tool_result", tool_name := some "memory",
    command := some "view", success := some true, result := some "ok" }

/-- A tool call logged for a tool other than `memory`. -/
def webToolEvt : Event :=
  { event_type := some "tool_call", tool_name := some "web_search",
    command := some "view", parameters := some [("path", PyVal.str "/memories")] }

/-- The spec's scenario tool call: `view` on `/memories` by the memory
tool. -/
def viewCallEvt : Event :=
  { event_type := some "tool_call", tool_name := some "memory",
    command := some "view", parameters := some [("path", PyVal.str "/memories")] }

/-- The spec's scenario tool result: success with a short file listing. -/
def viewResultEvt : Event :=
  { event_type := some "tool_result", tool_name := some "memory",
    command := some "view", success := some true, result := some "<file list>" }

/-- One successful single-turn run used to witness the counter invariant:
the `token_usage` event sits at index 3 of the resulting log. -/
def wTurns : List (String × CallOutcome) :=
  [("hi", CallOutcome.ok []
     { content := [ContentBlock.text "ok"],
       usage := { input_tokens := 3, output_tokens := 5 } })]

lemma sigOut_no_done (g : StreamSig) : (sigOut g).any isDone = false := by
  cases g <;> rfl

lemma outSigs_no_done (sigs : List StreamSig) : (outSigs sigs).any isDone = false := by
  induction sigs with
  | nil => rfl
  | cons g rest ih =>
    simp only [outSigs, List.flatMap_cons, List.any_append]
    simp only [outSigs] at ih
    simp [sigOut_no_done, ih]

/-- Claim C2: the diagram renderer is a pure, deterministic function of the
Session value — `generate_mermaid_diagram` reads nothing but the session id,
start time, model and event list of its input, so any two inputs agreeing on
those four fields (in particular, the same input on two calls) render to
byte-identical text, with no dependence on clocks, randomness or external
state. -/
theorem c2_render_deterministic (t1 t2 : TraceData)
    (h1 : t1.session_id = t2.session_id) (h2 : t1.start_time = t2.start_time)
    (h3 : t1.model = t2.model) (h4 : t1.events = t2.events) :
    generate_mermaid_diagram t1 = generate_mermaid_diagram t2 := by
  unfold generate_mermaid_diagram headerLines
  rw [h1, h2, h3, h4]

/-- Witness for C2: two records that differ in their unused fields
(`system_prompt`, `end_time`) render identically. -/
theorem c2_render_deterministic_witness :
    generate_mermaid_diagram { system_prompt := some "alpha" }
      = generate_mermaid_diagram { end_time := some "2025-01-01" } :=
  c2_render_deterministic _ _ rfl rfl rfl rfl

/-- Claim C3: when the external LLM call raises, the orchestrator appends to
the log an `error` event carrying the exception's classification and message
(after the unconditional `user_input` and `llm_request` events and whatever
the tool logged mid-stream), yields a terminal outward `error` event — the
last yielded event, with no `done` ever yielded — and leaves the cumulative
token counters exactly as they were before the turn. -/
theorem c3_failure_path (st : MgrState) (m : String) (sigs : List StreamSig)
    (et em : String) :
    (send_message_streaming st m (CallOutcome.exn sigs et em)).1.trace.events
        = st.trace.events
            ++ [user_input_event m,
                llm_request_event (st.messages.length + 1) ["memory"]]
            ++ sigTraceEvents sigs ++ [error_event et em]
      ∧ (send_message_streaming st m (CallOutcome.exn sigs et em)).2
          = outSigs sigs ++ [OutEvent.error em]
      ∧ (send_message_streaming st m (CallOutcome.exn sigs et em)).2.getLast?
          = some (OutEvent.error em)
      ∧ (send_message_streaming st m (CallOutcome.exn sigs et em)).2.any isDone
          = false
      ∧ (send_message_streaming st m (CallOutcome.exn sigs et em)).1.totals
          = st.totals := by
  refine ⟨?_, rfl, ?_, ?_, rfl⟩
  · simp [send_message_streaming]
  · simp [send_message_streaming, List.getLast?_concat]
  · simp [send_message_streaming, List.any_append, outSigs_no_done, isDone]

/-- Counterexample to claim C7: a replay input that parses but has neither a
`session_id` nor an `events` field is not rejected — the renderer substitutes
`unknown` and an empty event list and produces a complete document. -/
theorem c7_missing_fields_cex :
    diagram_main (Except.ok ({} : TraceData))
        = Except.ok (generate_mermaid_diagram ({} : TraceData))
      ∧ "Session ID: unknown" ∈ headerLines ({} : TraceData)
      ∧ generate_mermaid_diagram ({} : TraceData) ≠ "" := by
  refine ⟨rfl, by decide, by decide⟩

/-- Claim C7 as amended: replay input that is not valid structured data
(a JSON parse failure) makes the loader fail fast with a descriptive error
and no rendering; but a successfully parsed record is always rendered, even
when required aggregate fields such as `session_id` or `events` are missing
(they are silently defaulted). -/
theorem c7_loader_amended :
    (∀ e : String, diagram_main (Except.error e)
        = Except.error ("Error: Invalid JSON in trace file: " ++ e))
      ∧ (∀ td : TraceData, diagram_main (Except.ok td)
        = Except.ok (generate_mermaid_diagram td)) :=
  ⟨fun _ => rfl, fun _ => rfl⟩

/-- Counterexample to claim C8: when the memory clear succeeds but finalizing
the trace raises, the error is surfaced, yet the old message history and
counters are NOT left untouched — they were already cleared — so the reset is
not atomic from the caller's perspective. -/
theorem c8_not_atomic_cex :
    (clear_memories c8State (Except.ok "cleared") (Except.error "disk full")).2
        = Except.error "disk full"
      ∧ (clear_memories c8State (Except.ok "cleared") (Except.error "disk full")).1.messages
          = []
      ∧ c8State.messages ≠ []
      ∧ (clear_memories c8State (Except.ok "cleared") (Except.error "disk full")).1.totals
          = ⟨0, 0, 0, 0⟩
      ∧ c8State.totals ≠ ⟨0, 0, 0, 0⟩ := by
  refine ⟨rfl, rfl, by decide, rfl, by decide⟩

/-- Claim C8 as amended: when every step succeeds, `clear_memories` clears
the message history and the four counters, finalizes the current session's
log and starts a new session with the same model and system prompt; when the
initial memory-clear step raises, the old state is left untouched and the
error is surfaced; but the operation is not atomic — when finalizing raises,
the history and counters have already been cleared while the old trace
remains current. -/
theorem c8_reset_amended (st : MgrState) (r p e : String)
    (fin : Except String String) :
    clear_memories st (Except.error e) fin = (st, Except.error e)
      ∧ clear_memories st (Except.ok r) (Except.error e)
          = ({ st with messages := [], totals := ⟨0, 0, 0, 0⟩ },
             Except.error e)
      ∧ clear_memories st (Except.ok r) (Except.ok p)
          = ({ st with
               messages := [], totals := ⟨0, 0, 0, 0⟩,
               archived := st.archived ++ [st.trace],
               trace := { model := st.model,
                          system_prompt := st.system_prompt,
                          events := [] } },
             Except.ok r) :=
  ⟨rfl, rfl, rfl⟩

/-- Counterexample to claim C9: after a turn that fails, the message history
is NOT unchanged from its value before the turn — the user message was
appended before the external call, so a failed first turn leaves a one-entry
history where an empty one stood. -/
theorem c9_history_on_failure_cex :
    ((send_message_streaming (initState "m" "p") "hi"
        (CallOutcome.exn [] "APIError" "boom")).1).messages
        = [Message.user "hi"]
      ∧ (initState "m" "p").messages = []
      ∧ ([Message.user "hi"] : List Message) ≠ [] := by
  refine ⟨rfl, rfl, by decide⟩

/-- Claim C9 as amended: a failed turn leaves the message history equal to
its prior value plus the user message (which is appended unconditionally
before the external call); the assistant response is appended only on
confirmed success of the response extraction, so a failed turn never exposes
a partial assistant entry. -/
theorem c9_history_amended (st : MgrState) (m : String)
    (sigs sigs2 : List StreamSig) (et em : String) (resp : LLMResponse) :
    ((send_message_streaming st m (CallOutcome.exn sigs et em)).1).messages
        = st.messages ++ [Message.user m]
      ∧ ((send_message_streaming st m (CallOutcome.ok sigs2 resp)).1).messages
        = st.messages ++ [Message.user m,
            Message.assistant (extract_response_text sigs2 resp)] := by
  exact ⟨rfl, by simp [send_message_streaming]⟩

lemma step_skip (s : WalkState) (e : Event) (h : isRendered e = false) :
    stepEvent s e = (s, []) := by
  simp only [isRendered, Bool.or_eq_false_iff, beq_eq_false_iff_ne, ne_eq] at h
  obtain ⟨⟨⟨⟨⟨h1, h2⟩, h3⟩, h4⟩, h5⟩, h6⟩ := h
  simp [stepEvent, h1, h2, h3, h4, h5, h6]

lemma walk_filter (evs : List Event) :
    ∀ s : WalkState, walk s (evs.filter isRendered) = walk s evs := by
  induction evs with
  | nil => intro s; rfl
  | cons e rest ih =>
    intro s
    by_cases h : isRendered e
    · rw [List.filter_cons_of_pos h]
      simp only [walk]
      rw [ih]
    · rw [List.filter_cons_of_neg (by simpa using h)]
      simp only [walk, step_skip s e (by simpa using h)]
      rw [ih]
      simp

/-- Claim C10: an event whose `event_type` is none of the six kinds the
render walk recognizes — `token_usage` in particular, and any unknown type —
contributes no lines and leaves the walk state untouched, so the rendering of
a log equals the rendering of the same log with all such events removed. -/
theorem c10_unrecognized_skipped :
    (∀ td : TraceData,
        generate_mermaid_diagram td
          = generate_mermaid_diagram
              { td with events := td.events.filter isRendered })
      ∧ (∀ (s : WalkState) (e : Event), isRendered e = false →
          stepEvent s e = (s, [])) := by
  constructor
  · intro td
    simp [generate_mermaid_diagram, headerLines, walk_filter]
  · exact fun s e h => step_skip s e h

/-- Witness for C10: a concrete `token_usage` event steps to no lines and no
state change, and a log of one `token_usage` and one unknown event renders
identically to its filtered (empty) form. -/
theorem c10_unrecognized_skipped_witness :
    stepEvent ⟨0, false⟩ tokenEvtW = (⟨0, false⟩, [])
      ∧ generate_mermaid_diagram { events := [tokenEvtW, unknownEvtW] }
          = generate_mermaid_diagram
              { ({ events := [tokenEvtW, unknownEvtW] } : TraceData) with
                events :=
                  (({ events := [tokenEvtW, unknownEvtW] } : TraceData)).events.filter
                    isRendered } :=
  ⟨c10_unrecognized_skipped.2 ⟨0, false⟩ tokenEvtW rfl,
   c10_unrecognized_skipped.1 { events := [tokenEvtW, unknownEvtW] }⟩

lemma end_notin_user_input_lines (n : Nat) (e : Event) :
    "    end" ∉ user_input_lines n e := by
  intro h
  simp only [user_input_lines, List.mem_cons, List.not_mem_nil, or_false] at h
  have h7 : ("    end" : String).length = 7 := rfl
  rcases h with h | h | h | h | h | h
  · exact absurd h (by decide)
  · exact absurd h (by decide)
  · have hl := congrArg String.length h
    rw [String.length_append, String.length_append] at hl
    have h2 : 7 < ("        Note over User,MemorySystem: Turn " : String).length := by decide
    omega
  · exact absurd h (by decide)
  · have hl := congrArg String.length h
    rw [String.length_append, String.length_append] at hl
    have h2 : 7 < ("        User->>HostApp: \"" : String).length := by decide
    omega
  · exact absurd h (by decide)

lemma end_notin_llm_response_lines (e : Event) :
    "    end" ∉ llm_response_lines e := by
  intro h
  simp only [llm_response_lines, List.mem_cons, List.not_mem_nil, or_false] at h
  have h7 : ("    end" : String).length = 7 := rfl
  rcases h with h | h | h | h | h
  · exact absurd h (by decide)
  · exact absurd h (by decide)
  · have hl := congrArg String.length h
    rw [String.length_append, String.length_append] at hl
    have h2 : 7 < ("        LLM-->>HostApp: \"" : String).length := by decide
    omega
  · exact absurd h (by decide)
  · have hl := congrArg String.length h
    rw [String.length_append, String.length_append] at hl
    have h2 : 7 < ("        HostApp-->>User: \"" : String).length := by decide
    omega

/-- Claim C4: the render walk keeps one turn counter and one open-turn flag.
A `user_input` event increments the 1-based counter, opens a grouping
(emitting the framed region with the `Turn n` label, never a closing `end`)
regardless of whether one was already open — so two consecutive `user_input`
events with no intervening `llm_response` open two regions and close none; an
`llm_response` event closes the grouping exactly when one is open (its own
lines never contain `end` otherwise); and at the end of the walk a still-open
grouping is force-closed. -/
theorem c4_turn_grouping :
    (∀ (s : WalkState) (e : Event), e.event_type = some "user_input" →
        stepEvent s e
          = (⟨s.turn_number + 1, true⟩, user_input_lines (s.turn_number + 1) e))
      ∧ (∀ (n : Nat) (e : Event),
          ("        Note over User,MemorySystem: Turn " ++ toString n
              ++ ": User Input") ∈ user_input_lines n e
            ∧ "    end" ∉ user_input_lines n e)
      ∧ (∀ (s : WalkState) (e : Event), e.event_type = some "llm_response" →
          s.in_turn = true →
            stepEvent s e
              = (⟨s.turn_number, false⟩, llm_response_lines e ++ ["    end"]))
      ∧ (∀ (s : WalkState) (e : Event), e.event_type = some "llm_response" →
          s.in_turn = false →
            stepEvent s e = (s, llm_response_lines e)
              ∧ "    end" ∉ llm_response_lines e)
      ∧ (∀ td : TraceData,
          generate_mermaid_diagram td
            = pyJoin "\n" (headerLines td ++ (walk ⟨0, false⟩ td.events).2
                ++ (if (walk ⟨0, false⟩ td.events).1.in_turn
                    then ["    end"] else [])
                ++ ["", "    Note over HostApp: Session Ended", "```"]))
      ∧ ((walk ⟨0, false⟩ [user_input_event "a", user_input_event "b"]).1
            = ⟨2, true⟩
          ∧ (walk ⟨0, false⟩
              [user_input_event "a", user_input_event "b"]).2.count "    end" = 0
          ∧ (walk ⟨0, false⟩
              [user_input_event "a", user_input_event "b"]).2.count
                "    rect rgb(200, 220, 255)" = 2) := by
  refine ⟨?_, ?_, ?_, ?_, ?_, rfl, by decide, by decide⟩
  · intro s e h
    simp [stepEvent, h]
  · intro n e
    exact ⟨by simp [user_input_lines], end_notin_user_input_lines n e⟩
  · intro s e h hin
    simp [stepEvent, h, hin]
  · intro s e h hin
    exact ⟨by simp [stepEvent, h, hin], end_notin_llm_response_lines e⟩
  · intro td
    rfl

/-- Witness for C4: the per-event equations applied at concrete states and
events. -/
theorem c4_turn_grouping_witness :
    stepEvent ⟨0, false⟩ (user_input_event "x")
        = (⟨1, true⟩, user_input_lines 1 (user_input_event "x"))
      ∧ stepEvent ⟨1, true⟩ (user_input_event "y")
          = (⟨2, true⟩, user_input_lines 2 (user_input_event "y"))
      ∧ stepEvent ⟨1, true⟩ (llm_response_event "r")
          = (⟨1, false⟩, llm_response_lines (llm_response_event "r") ++ ["    end"])
      ∧ stepEvent ⟨1, false⟩ (llm_response_event "r")
          = (⟨1, false⟩, llm_response_lines (llm_response_event "r")) :=
  ⟨c4_turn_grouping.1 ⟨0, false⟩ _ rfl,
   c4_turn_grouping.1 ⟨1, true⟩ _ rfl,
   c4_turn_grouping.2.2.1 ⟨1, true⟩ _ rfl rfl,
   (c4_turn_grouping.2.2.2.1 ⟨1, false⟩ _ rfl rfl).1⟩

/-- Counterexample to claim C5: the `tool_call` branch renders the command
text raw, bypassing the shared escaping primitive — a command containing a
double quote reaches the diagram unnormalised, although `escape_text` would
have turned the quote into a single quote. -/
theorem c5_unescaped_command_cex :
    (stepEvent ⟨0, false⟩ quoteCmdEvt).2
        = ["", "        Note over LLM: Decides to say \"hi\"",
           "        LLM->>MemorySystem: say \"hi\"()",
           "        activate MemorySystem"]
      ∧ escape_text "say \"hi\"" 50 = "say \x27hi\x27"
      ∧ ("say \"hi\"" : String) ≠ "say \x27hi\x27" := by
  refine ⟨rfl, rfl, by decide⟩

/-- Claim C5 as amended: text payloads of `user_input` (budget 50),
`llm_response` (budget 60), `tool_result` (budget 40) and `error` (budget 40)
events all pass through the single shared primitive `escape_text` — line
breaks become `<br/>`, double quotes become single quotes, and overlong text
is truncated to the budget with a trailing `...`, so an `error` event whose
message exceeds the budget renders truncated with the ellipsis, never raw.
The `tool_call` branch is the exception: its command and parameter rendering
bypass `escape_text` (the command is emitted unescaped and untruncated, the
parameters are sliced without escaping). -/
theorem c5_escaping_amended :
    (∀ (s : WalkState) (e : Event), e.event_type = some "error" →
        (stepEvent s e).2
          = ["    Note over HostApp: ERROR: "
              ++ escape_text (e.message.getD "Unknown error") 40])
      ∧ (∀ (s : WalkState) (e : Event), e.event_type = some "user_input" →
          ("        User->>HostApp: \"" ++ escape_text (e.content.getD "") 50
              ++ "\"") ∈ (stepEvent s e).2)
      ∧ (∀ (s : WalkState) (e : Event), e.event_type = some "llm_response" →
          ("        LLM-->>HostApp: \"" ++ escape_text (e.content.getD "") 60
              ++ "\"") ∈ (stepEvent s e).2)
      ∧ (∀ (s : WalkState) (e : Event), e.event_type = some "tool_result" →
          e.tool_name = some "memory" → e.success = some true →
            ("        MemorySystem-->>LLM: " ++ escape_text (e.result.getD "") 40)
              ∈ (stepEvent s e).2)
      ∧ (∀ (s : WalkState) (e : Event), e.event_type = some "tool_call" →
          e.tool_name = some "memory" →
            ("        Note over LLM: Decides to " ++ e.command.getD "")
              ∈ (stepEvent s e).2)
      ∧ (∀ (t : String) (maxL : Nat), (escapedRaw t).length > maxL →
          escape_text t maxL = strTake (escapedRaw t) maxL ++ "...")
      ∧ escape_text fiftyA 40 = fortyA ++ "..."
      ∧ escape_text fiftyA 40 ≠ fiftyA := by
  refine ⟨?_, ?_, ?_, ?_, ?_, ?_, rfl, by decide⟩
  · intro s e h
    simp [stepEvent, h, error_lines]
  · intro s e h
    simp [stepEvent, h, user_input_lines]
  · intro s e h
    by_cases hin : s.in_turn <;> simp [stepEvent, h, hin, llm_response_lines]
  · intro s e h h2 h3
    simp [stepEvent, h, h2, h3, tool_result_lines]
  · intro s e h h2
    simp [stepEvent, h, h2, tool_call_lines]
  · intro t maxL h
    simp only [escape_text]
    rw [if_pos h]

/-- Witness for the amended C5: the escaping equations applied at concrete
events, and the truncation equation applied at a message longer than the
budget. -/
theorem c5_escaping_amended_witness :
    (stepEvent ⟨0, false⟩ (error_event "E" "boom")).2
        = ["    Note over HostApp: ERROR: " ++ escape_text "boom" 40]
      ∧ ("        User->>HostApp: \"" ++ escape_text "hi" 50 ++ "\"")
          ∈ (stepEvent ⟨0, false⟩ (user_input_event "hi")).2
      ∧ ("        LLM-->>HostApp: \"" ++ escape_text "resp" 60 ++ "\"")
          ∈ (stepEvent ⟨0, false⟩ (llm_response_event "resp")).2
      ∧ ("        MemorySystem-->>LLM: " ++ escape_text "ok" 40)
          ∈ (stepEvent ⟨0, false⟩ okResultEvt).2
      ∧ ("        Note over LLM: Decides to say \"hi\"")
          ∈ (stepEvent ⟨0, false⟩ quoteCmdEvt).2
      ∧ escape_text fiftyA 40 = strTake (escapedRaw fiftyA) 40 ++ "..." :=
  ⟨c5_escaping_amended.1 ⟨0, false⟩ _ rfl,
   c5_escaping_amended.2.1 ⟨0, false⟩ _ rfl,
   c5_escaping_amended.2.2.1 ⟨0, false⟩ _ rfl,
   c5_escaping_amended.2.2.2.1 ⟨0, false⟩ _ rfl rfl rfl,
   c5_escaping_amended.2.2.2.2.1 ⟨0, false⟩ _ rfl rfl,
   c5_escaping_amended.2.2.2.2.2.1 fiftyA 40 (by decide)⟩

/-- Counterexample to claim C6: a `tool_call` event whose tool is not
`memory` emits no call annotation at all — the walk produces no lines for it,
so it is not the case that every `tool_call` event in the log yields a call
annotation containing its command. -/
theorem c6_memory_only_cex :
    webToolEvt.event_type = some "tool_call"
      ∧ webToolEvt.command = some "view"
      ∧ stepEvent ⟨0, false⟩ webToolEvt = (⟨0, false⟩, []) := by
  refine ⟨rfl, rfl, rfl⟩

/-- Claim C6 as amended: for every `tool_call` event whose `tool_name` is
`memory`, the walk emits a call annotation with the command and the
parameters as `key=value` pairs in original order — each value's `repr`
sliced to a 30-character budget, joined with `, `, the whole list truncated
again to a 50-character budget with a trailing `...` — and a `tool_result`
event for the memory tool emits a return annotation with a truncated preview
of the result on success, or an `ERROR: `-prefixed truncated preview on
failure; a `tool_call` event for any other tool emits nothing.  The
concluding conjuncts run the spec's `view(path=...)` scenario and exhibit the
order-preserving double truncation. -/
theorem c6_tool_annotations_amended :
    (∀ (s : WalkState) (e : Event), e.event_type = some "tool_call" →
        e.tool_name = some "memory" →
          (stepEvent s e).2
            = ["", "        Note over LLM: Decides to " ++ e.command.getD "",
               "        LLM->>MemorySystem: " ++ e.command.getD "" ++ "("
                 ++ format_params (e.parameters.getD []) ++ ")",
               "        activate MemorySystem"])
      ∧ (∀ (s : WalkState) (e : Event), e.event_type = some "tool_call" →
          ¬ e.tool_name.getD "" = "memory" → (stepEvent s e).2 = [])
      ∧ (∀ (s : WalkState) (e : Event), e.event_type = some "tool_result" →
          e.tool_name = some "memory" → e.success = some true →
            (stepEvent s e).2
              = ["        MemorySystem-->>LLM: "
                   ++ escape_text (e.result.getD "") 40,
                 "        deactivate MemorySystem"])
      ∧ (∀ (s : WalkState) (e : Event), e.event_type = some "tool_result" →
          e.tool_name = some "memory" → e.success = some false →
            (stepEvent s e).2
              = ["        MemorySystem-->>LLM: ERROR: "
                   ++ escape_text (pyOrElse e.error "Error") 40,
                 "        deactivate MemorySystem"])
      ∧ format_params [("path", PyVal.str "/memories")] = "path=\x27/memories\x27"
      ∧ format_params
            [("alpha", PyVal.str "0123456789012345678901234567890123456789"),
             ("beta", PyVal.int 2), ("gamma", PyVal.bool true)]
          = "alpha=\x2701234567890123456789012345678, beta=2, gamm..."
      ∧ (stepEvent ⟨0, false⟩ viewCallEvt).2
          = ["", "        Note over LLM: Decides to view",
             "        LLM->>MemorySystem: view(path=\x27/memories\x27)",
             "        activate MemorySystem"]
      ∧ (stepEvent ⟨0, false⟩ viewResultEvt).2
          = ["        MemorySystem-->>LLM: <file list>",
             "        deactivate MemorySystem"] := by
  refine ⟨?_, ?_, ?_, ?_, rfl, rfl, rfl, rfl⟩
  · intro s e h h2
    simp [stepEvent, h, h2, tool_call_lines]
  · intro s e h h2
    simp [stepEvent, h, h2]
  · intro s e h h2 h3
    simp [stepEvent, h, h2, h3, tool_result_lines]
  · intro s e h h2 h3
    simp [stepEvent, h, h2, h3, tool_result_lines]

/-- Witness for the amended C6: the annotation equations applied at the
concrete scenario events. -/
theorem c6_tool_annotations_amended_witness :
    (stepEvent ⟨0, false⟩ viewCallEvt).2
        = ["", "        Note over LLM: Decides to "
               ++ (viewCallEvt.command.getD ""),
           "        LLM->>MemorySystem: " ++ (viewCallEvt.command.getD "") ++ "("
             ++ format_params (viewCallEvt.parameters.getD []) ++ ")",
           "        activate MemorySystem"]
      ∧ (stepEvent ⟨0, false⟩ webToolEvt).2 = []
      ∧ (stepEvent ⟨0, false⟩ viewResultEvt).2
          = ["        MemorySystem-->>LLM: "
               ++ escape_text (viewResultEvt.result.getD "") 40,
             "        deactivate MemorySystem"] :=
  ⟨c6_tool_annotations_amended.1 ⟨0, false⟩ _ rfl rfl,
   c6_tool_annotations_amended.2.1 ⟨0, false⟩ _ rfl (by decide),
   c6_tool_annotations_amended.2.2.1 ⟨0, false⟩ _ rfl rfl rfl⟩

lemma addT_zero_left (x : Tokens) : addT ⟨0, 0, 0, 0⟩ x = x := by
  cases x; simp [addT]

lemma addT_zero_right (x : Tokens) : addT x ⟨0, 0, 0, 0⟩ = x := by
  cases x; simp [addT]

lemma addT_assoc (a b c : Tokens) : addT (addT a b) c = addT a (addT b c) := by
  cases a; cases b; cases c; simp [addT, Nat.add_assoc]

lemma leT_refl (x : Tokens) : leT x x := ⟨le_refl _, le_refl _, le_refl _, le_refl _⟩

lemma leT_zero_left (x : Tokens) : leT ⟨0, 0, 0, 0⟩ x :=
  ⟨Nat.zero_le _, Nat.zero_le _, Nat.zero_le _, Nat.zero_le _⟩

lemma addT_le_left (c a b : Tokens) (h : leT a b) : leT (addT c a) (addT c b) :=
  ⟨Nat.add_le_add_left h.1 _, Nat.add_le_add_left h.2.1 _,
   Nat.add_le_add_left h.2.2.1 _, Nat.add_le_add_left h.2.2.2 _⟩

lemma sumDeltas_append (xs ys : List Event) :
    sumDeltas (xs ++ ys) = addT (sumDeltas xs) (sumDeltas ys) := by
  induction xs with
  | nil => simp [sumDeltas, addT_zero_left]
  | cons e rest ih =>
    by_cases he : e.event_type = some "token_usage"
    · simp only [List.cons_append, sumDeltas, if_pos he, List.append_eq, ih,
        addT_assoc]
    · simp only [List.cons_append, sumDeltas, if_neg he, List.append_eq, ih]

lemma checkCum_append (xs ys : List Event) :
    ∀ acc : Tokens,
      checkCum acc (xs ++ ys)
        = (checkCum acc xs && checkCum (addT acc (sumDeltas xs)) ys) := by
  induction xs with
  | nil => intro acc; simp [checkCum, sumDeltas, addT_zero_right]
  | cons e rest ih =>
    intro acc
    by_cases he : e.event_type = some "token_usage"
    · by_cases hc : e.cumulative = addT acc e.delta
      · simp only [List.cons_append, checkCum, if_pos he, if_pos hc,
          List.append_eq, ih, sumDeltas, addT_assoc]
      · simp only [List.cons_append, checkCum, if_pos he, if_neg hc,
          Bool.false_and]
    · simp only [List.cons_append, checkCum, if_neg he, List.append_eq, ih,
        sumDeltas]

lemma sumDeltas_eq_zero {l : List Event}
    (h : ∀ e ∈ l, ¬ e.event_type = some "token_usage") :
    sumDeltas l = ⟨0, 0, 0, 0⟩ := by
  induction l with
  | nil => rfl
  | cons e rest ih =>
    rw [sumDeltas, if_neg (h e (List.mem_cons_self e rest))]
    exact ih (fun x hx => h x (List.mem_cons_of_mem e hx))

lemma checkCum_of_no_token :
    ∀ (l : List Event) (acc : Tokens),
      (∀ e ∈ l, ¬ e.event_type = some "token_usage") →
        checkCum acc l = true := by
  intro l
  induction l with
  | nil => intro acc _; rfl
  | cons e rest ih =>
    intro acc h
    rw [checkCum, if_neg (h e (List.mem_cons_self e rest))]
    exact ih acc (fun x hx => h x (List.mem_cons_of_mem e hx))

lemma mem_sigTraceEvents_no_token (sigs : List StreamSig) :
    ∀ e ∈ sigTraceEvents sigs, ¬ e.event_type = some "token_usage" := by
  intro e he
  simp only [sigTraceEvents, List.mem_filterMap] at he
  obtain ⟨g, _, hfe⟩ := he
  cases g with
  | toolLog t =>
    simp only [Option.some.injEq] at hfe
    rw [← hfe]
    cases t <;> simp [toolTraceEvent]
  | contentBlockDelta t => simp at hfe
  | contentBlockStartToolUse n i => simp at hfe
  | other => simp at hfe

lemma inv_step (st : MgrState) (m : String) (c : CallOutcome)
    (h1 : checkCum ⟨0, 0, 0, 0⟩ st.trace.events = true)
    (h2 : sumDeltas st.trace.events = st.totals) :
    checkCum ⟨0, 0, 0, 0⟩ (send_message_streaming st m c).1.trace.events = true
      ∧ sumDeltas (send_message_streaming st m c).1.trace.events
          = (send_message_streaming st m c).1.totals := by
  cases c with
  | exn sigs et em =>
    have hno : ∀ e ∈ [user_input_event m,
        llm_request_event (st.messages ++ [Message.user m]).length ["memory"]]
          ++ (sigTraceEvents sigs ++ [error_event et em]),
        ¬ e.event_type = some "token_usage" := by
      intro e he
      simp only [List.mem_append, List.mem_cons, List.not_mem_nil,
        or_false] at he
      rcases he with (h | h) | (h | h)
      · rw [h]; simp [user_input_event]
      · rw [h]; simp [llm_request_event]
      · exact mem_sigTraceEvents_no_token sigs e h
      · rw [h]; simp [error_event]
    constructor
    · simp only [send_message_streaming]
      rw [List.append_assoc, List.append_assoc, checkCum_append, h1,
        Bool.true_and]
      exact checkCum_of_no_token _ _ hno
    · simp only [send_message_streaming]
      rw [List.append_assoc, List.append_assoc, sumDeltas_append,
        sumDeltas_eq_zero hno, addT_zero_right, h2]
  | ok sigs resp =>
    have hnoA : ∀ e ∈ [user_input_event m,
        llm_request_event (st.messages ++ [Message.user m]).length ["memory"]]
          ++ sigTraceEvents sigs,
        ¬ e.event_type = some "token_usage" := by
      intro e he
      simp only [List.mem_append, List.mem_cons, List.not_mem_nil,
        or_false] at he
      rcases he with (h | h) | h
      · rw [h]; simp [user_input_event]
      · rw [h]; simp [llm_request_event]
      · exact mem_sigTraceEvents_no_token sigs e h
    have hA : checkCum st.totals
        ([user_input_event m,
          llm_request_event (st.messages ++ [Message.user m]).length
            ["memory"]] ++ sigTraceEvents sigs) = true :=
      checkCum_of_no_token _ _ hnoA
    have hsA : sumDeltas
        ([user_input_event m,
          llm_request_event (st.messages ++ [Message.user m]).length
            ["memory"]] ++ sigTraceEvents sigs) = ⟨0, 0, 0, 0⟩ :=
      sumDeltas_eq_zero hnoA
    constructor
    · simp only [send_message_streaming]
      rw [List.append_assoc, List.append_assoc, checkCum_append, h1,
        Bool.true_and, addT_zero_left, h2, ← List.append_assoc,
        checkCum_append, hA, Bool.true_and, hsA, addT_zero_right]
      rw [checkCum, if_neg (by simp [llm_response_event])]
      rw [checkCum, if_pos (by simp [token_usage_event])]
      rw [if_pos (by simp [token_usage_event])]
      rfl
    · simp only [send_message_streaming]
      rw [List.append_assoc, List.append_assoc, sumDeltas_append, h2,
        ← List.append_assoc, sumDeltas_append, hsA, addT_zero_left]
      rw [sumDeltas, if_neg (by simp [llm_response_event])]
      rw [sumDeltas, if_pos (by simp [token_usage_event])]
      rw [sumDeltas, addT_zero_right]
      simp [token_usage_event]

lemma runTurns_inv (turns : List (String × CallOutcome)) :
    ∀ st : MgrState,
      checkCum ⟨0, 0, 0, 0⟩ st.trace.events = true →
      sumDeltas st.trace.events = st.totals →
        checkCum ⟨0, 0, 0, 0⟩ (runTurns st turns).trace.events = true
          ∧ sumDeltas (runTurns st turns).trace.events
              = (runTurns st turns).totals := by
  induction turns with
  | nil => intro st h1 h2; exact ⟨h1, h2⟩
  | cons t rest ih =>
    intro st h1 h2
    have hstep := inv_step st t.1 t.2 h1 h2
    exact ih _ hstep.1 hstep.2

lemma checkCum_get :
    ∀ (evs : List Event) (acc : Tokens), checkCum acc evs = true →
      ∀ (i : Nat) (hi : i < evs.length),
        (evs.get ⟨i, hi⟩).event_type = some "token_usage" →
          (evs.get ⟨i, hi⟩).cumulative
            = addT acc (sumDeltas (evs.take (i + 1))) := by
  intro evs
  induction evs with
  | nil => intro acc _ i hi; exact absurd hi (by simp)
  | cons e rest ih =>
    intro acc h i hi ht
    rw [checkCum] at h
    by_cases he : e.event_type = some "token_usage"
    · rw [if_pos he] at h
      by_cases hc : e.cumulative = addT acc e.delta
      · rw [if_pos hc] at h
        cases i with
        | zero =>
          simp only [List.get, List.take, List.take_zero] at *
          rw [hc, sumDeltas, if_pos he, sumDeltas, addT_zero_right]
        | succ j =>
          have hj : j < rest.length := by simpa using hi
          have hrec := ih (addT acc e.delta) h j hj (by simpa using ht)
          simp only [List.get, List.take_succ_cons] at *
          rw [hrec, sumDeltas, if_pos he, ← addT_assoc]
      · rw [if_neg hc] at h
        exact absurd h (by simp)
    · rw [if_neg he] at h
      cases i with
      | zero => exact absurd (by simpa using ht) he
      | succ j =>
        have hj : j < rest.length := by simpa using hi
        have hrec := ih acc h j hj (by simpa using ht)
        simp only [List.get, List.take_succ_cons] at *
        rw [hrec, sumDeltas, if_neg he]

lemma sumDeltas_take_le (l : List Event) :
    ∀ (i j : Nat), i ≤ j →
      leT (sumDeltas (l.take i)) (sumDeltas (l.take j)) := by
  induction l with
  | nil => intro i j _; simp only [List.take_nil]; exact leT_refl _
  | cons e rest ih =>
    intro i j hij
    cases i with
    | zero =>
      simp only [List.take_zero]
      exact leT_zero_left _
    | succ i2 =>
      cases j with
      | zero => exact absurd hij (by omega)
      | succ j2 =>
        rw [List.take_succ_cons, List.take_succ_cons]
        by_cases he : e.event_type = some "token_usage"
        · rw [sumDeltas, if_pos he, sumDeltas, if_pos he]
          exact addT_le_left _ _ _ (ih i2 j2 (by omega))
        · rw [sumDeltas, if_neg he, sumDeltas, if_neg he]
          exact ih i2 j2 (by omega)

/-- Claim C1: in every session log produced by running any sequence of turns
on a fresh manager, every `token_usage` event's cumulative fields equal the
sum of the per-turn deltas of all `token_usage` events up to and including
it, and the four cumulative counters never decrease across the events of the
session. -/
theorem c1_counter_consistency (model sp : String)
    (turns : List (String × CallOutcome)) :
    (∀ (i : Nat)
        (hi : i < ((runTurns (initState model sp) turns).trace.events).length),
        (((runTurns (initState model sp) turns).trace.events).get
            ⟨i, hi⟩).event_type = some "token_usage" →
          (((runTurns (initState model sp) turns).trace.events).get
              ⟨i, hi⟩).cumulative
            = sumDeltas
                (((runTurns (initState model sp) turns).trace.events).take
                  (i + 1)))
      ∧ (∀ (i j : Nat)
          (hi : i < ((runTurns (initState model sp) turns).trace.events).length)
          (hj : j < ((runTurns (initState model sp) turns).trace.events).length),
          i ≤ j →
          (((runTurns (initState model sp) turns).trace.events).get
              ⟨i, hi⟩).event_type = some "token_usage" →
          (((runTurns (initState model sp) turns).trace.events).get
              ⟨j, hj⟩).event_type = some "token_usage" →
            leT (((runTurns (initState model sp) turns).trace.events).get
                  ⟨i, hi⟩).cumulative
                (((runTurns (initState model sp) turns).trace.events).get
                  ⟨j, hj⟩).cumulative) := by
  have hinv := runTurns_inv turns (initState model sp) rfl rfl
  constructor
  · intro i hi ht
    have hr := checkCum_get _ _ hinv.1 i hi ht
    rwa [addT_zero_left] at hr
  · intro i j hi hj hij hti htj
    have h1 := checkCum_get _ _ hinv.1 i hi hti
    have h2 := checkCum_get _ _ hinv.1 j hj htj
    rw [addT_zero_left] at h1 h2
    rw [h1, h2]
    exact sumDeltas_take_le _ (i + 1) (j + 1) (by omega)

/-- Witness for C1: the invariant applied at the concrete `token_usage`
event of a one-turn session. -/
theorem c1_counter_consistency_witness :
    (((runTurns (initState "m" "p") wTurns).trace.events).get
        ⟨3, by decide⟩).cumulative
      = sumDeltas (((runTurns (initState "m" "p") wTurns).trace.events).take 4)
    ∧ leT (((runTurns (initState "m" "p") wTurns).trace.events).get
            ⟨3, by decide⟩).cumulative
          (((runTurns (initState "m" "p") wTurns).trace.events).get
            ⟨3, by decide⟩).cumulative :=
  ⟨(c1_counter_consistency "m" "p" wTurns).1 3 (by decide) (by decide),
   (c1_counter_consistency "m" "p" wTurns).2 3 3 (by decide) (by decide)
     (by omega) (by decide) (by decide)⟩
